import Mathlib

/-!
Verification of the customer-churn ETL pipeline
(`src/churn_ml/etl/customer_churn_etl.py` and
`src/churn_ml/utils/exceptions.py`).

Cells of the in-memory table are modelled by `Value` (a string, a number,
or the missing marker NaN/null).  A `Row` fixes the three columns the
pipeline touches (`customerID`, `SeniorCitizen`, `TotalCharges`) and keeps
the remaining columns as an association list.  The document-store client
is modelled by an explicit behaviour oracle plus a trace of the store
operations that `load_data` performs.
-/

namespace ChurnETL

/-- A cell value of the in-memory table: a string, a rational number
(modelling Python numerics), or the missing marker (`NaN` / null). -/
inductive Value where
  | vStr : String → Value
  | vNum : Rat → Value
  | vNull : Value
deriving DecidableEq, Repr

/-- One row of the raw table: the three columns the pipeline transforms,
plus the remaining columns as an association list. -/
structure Row where
  customerID : Value
  seniorCitizen : Value
  totalCharges : Value
  other : List (String × Value)
deriving DecidableEq, Repr

/-- Python `str.strip()`: remove leading and trailing whitespace. -/
def pyStrip (s : String) : String :=
  String.mk (((s.toList.dropWhile Char.isWhitespace).reverse.dropWhile
    Char.isWhitespace).reverse)

/-- Numeric value of a list of decimal digit characters. -/
def digitsVal (l : List Char) : Nat :=
  l.foldl (fun a c => a * 10 + (c.toNat - 48)) 0

/-- Decimal numeric parsing, modelling `pd.to_numeric` on the values this
pipeline sees: optional sign, integer digits, optional fractional part.
Returns `none` exactly when parsing fails. -/
def parseNumeric (s : String) : Option Rat :=
  let cs := s.toList
  let signed : Bool × List Char :=
    match cs with
    | '-' :: rest => (true, rest)
    | '+' :: rest => (false, rest)
    | _ => (false, cs)
  let neg := signed.1
  let body := signed.2
  let intPart := body.takeWhile Char.isDigit
  let rest := body.dropWhile Char.isDigit
  let mag : Option Rat :=
    match rest with
    | [] => if intPart.isEmpty then none else some ((digitsVal intPart : Nat) : Rat)
    | '.' :: frac =>
      if frac.all Char.isDigit && !(intPart.isEmpty && frac.isEmpty) then
        some (((digitsVal intPart : Nat) : Rat) +
          ((digitsVal frac : Nat) : Rat) / (10 : Rat) ^ frac.length)
      else none
    | _ => none
  mag.map (fun q => if neg then -q else q)

/-- The `SeniorCitizen` normalization step,
`df["SeniorCitizen"].map({1: "Yes", 0: "No"})`: a pandas `Series.map`
with a dict sends raw value `1` to `"Yes"`, raw value `0` to `"No"`, and
every value absent from the dict to `NaN`. -/
def mapSeniorCitizen (v : Value) : Value :=
  if v = Value.vNum 1 then Value.vStr "Yes"
  else if v = Value.vNum 0 then Value.vStr "No"
  else Value.vNull

/-- The `TotalCharges` coercion step,
`astype(str).str.strip().replace("", nan)` followed by
`pd.to_numeric(errors="coerce")`: on a string cell, strip whitespace,
turn the empty result into NaN, otherwise parse, with parse failure
producing NaN; a numeric cell round-trips through its string form, and
NaN stays NaN. -/
def coerceTotalCharges : Value → Value
  | Value.vStr s =>
    if pyStrip s = "" then Value.vNull
    else
      match parseNumeric (pyStrip s) with
      | some q => Value.vNum q
      | none => Value.vNull
  | Value.vNum q => Value.vNum q
  | Value.vNull => Value.vNull

/-- `df.drop_duplicates(subset=["customerID"], keep="first")`: keep a row
when its `customerID` has not been seen before, scanning in order. -/
def dropDuplicatesByCustomerID (seen : List Value) : List Row → List Row
  | [] => []
  | r :: rs =>
    if r.customerID ∈ seen then dropDuplicatesByCustomerID seen rs
    else r :: dropDuplicatesByCustomerID (r.customerID :: seen) rs

/-- The per-row column assignments of `transform_data`, applied after the
deduplication step. -/
def transformRow (r : Row) : Row :=
  { r with
    seniorCitizen := mapSeniorCitizen r.seniorCitizen,
    totalCharges := coerceTotalCharges r.totalCharges }

/-- `CustomerChurnETL.transform_data`: reject an empty table, then
deduplicate by `customerID`, normalize `SeniorCitizen`, coerce
`TotalCharges`, and materialize the rows as records. -/
def transform_data (df : List Row) : Except String (List Row) :=
  if df = [] then Except.error "Cannot transform an empty DataFrame"
  else Except.ok ((dropDuplicatesByCustomerID [] df).map transformRow)

/-- A CSV file found in the downloaded snapshot directory, together with
the table `pd.read_csv` would parse from it. -/
structure CsvFile where
  name : String
  table : List Row
deriving Repr

/-- `CustomerChurnETL.extract_data` after the download: require exactly
one CSV file in the snapshot directory, parse it, and reject an empty
table. -/
def extract_data (csv_files : List CsvFile) : Except String (List Row) :=
  match csv_files with
  | [f] =>
    if f.table = [] then Except.error "Extracted dataset is empty"
    else Except.ok f.table
  | _ => Except.error "Expected exactly one CSV file in dataset directory"

/-- One operation performed against the document store by `load_data`. -/
inductive StoreOp where
  | connect
  | deleteMany
  | createIndex
  | insertMany (n : Nat)
  | close
deriving DecidableEq, Repr

/-- Behaviour oracle for the document store: whether each operation
succeeds, and for the insert, `some n` means the store reports `n`
inserted ids while `none` means `insert_many` raises. -/
structure StoreBehavior where
  connectOk : Bool
  deleteOk : Bool
  indexOk : Bool
  insertResult : Option Nat
deriving DecidableEq, Repr

/-- `CustomerChurnETL.load_data`: return `0` immediately on an empty
batch; otherwise connect, clear the collection, create the unique index,
insert, and close.  The second component is the trace of store operations
attempted, in order; an operation that raises is the last entry of the
trace, and the surrounding `except` block re-raises without running the
remaining statements, so `close` only appears after a successful insert. -/
def load_data (beh : StoreBehavior) (records : List Row) :
    Except String Nat × List StoreOp :=
  if records = [] then (Except.ok 0, [])
  else if beh.connectOk = false then
    (Except.error "connection failed", [StoreOp.connect])
  else if beh.deleteOk = false then
    (Except.error "delete_many failed", [StoreOp.connect, StoreOp.deleteMany])
  else if beh.indexOk = false then
    (Except.error "create_index failed",
      [StoreOp.connect, StoreOp.deleteMany, StoreOp.createIndex])
  else
    match beh.insertResult with
    | none =>
      (Except.error "insert_many failed",
        [StoreOp.connect, StoreOp.deleteMany, StoreOp.createIndex,
          StoreOp.insertMany records.length])
    | some n =>
      (Except.ok n,
        [StoreOp.connect, StoreOp.deleteMany, StoreOp.createIndex,
          StoreOp.insertMany records.length, StoreOp.close])

/-- A configuration value read from the environment is missing when the
variable is unset (`None`) or empty (Python falsiness of `not value`). -/
def isMissing : Option String → Bool
  | none => true
  | some s => s = ""

/-- The `required_vars` dict of `_validate_env`, in its insertion order. -/
def requiredVars (url ds db coll : Option String) :
    List (String × Option String) :=
  [("MONGODB_URL", url), ("DATA_SOURCE", ds),
    ("MONGODB_DATABASE", db), ("MONGODB_COLLECTION", coll)]

/-- The `missing` list of `_validate_env`: names of the required
environment variables whose value is falsy, in declaration order. -/
def missingVars (url ds db coll : Option String) : List String :=
  ((requiredVars url ds db coll).filter (fun p => isMissing p.2)).map Prod.fst

/-- `CustomerChurnETL._validate_env`: raise a `ValueError` naming every
missing required environment variable, joined by a comma, when at least
one is missing. -/
def validate_env (url ds db coll : Option String) : Except String Unit :=
  if missingVars url ds db coll = [] then Except.ok ()
  else
    Except.error ("Missing required environment variables: " ++
      String.intercalate ", " (missingVars url ds db coll))

/-- The fragment of a Python traceback object the exception class reads. -/
structure Traceback where
  tb_lineno : Nat
  tb_filename : String
deriving DecidableEq, Repr

/-- The attributes `CustomerChurnException.__init__` stores. -/
structure CustomerChurnException where
  error_message : String
  lineno : Option Nat
  file_name : Option String
deriving DecidableEq, Repr

/-- `CustomerChurnException.__init__`: `sys.exc_info()` yields the active
traceback, or `None` when no exception is being handled; `lineno` and
`file_name` come from the traceback when present and are `None`
otherwise. -/
def mkCustomerChurnException (error_message : String)
    (exc_tb : Option Traceback) : CustomerChurnException :=
  match exc_tb with
  | some tb => ⟨error_message, some tb.tb_lineno, some tb.tb_filename⟩
  | none => ⟨error_message, none, none⟩

/-- Concrete row used in the load-stage examples. -/
def sampleRow : Row := ⟨Value.vStr "A", Value.vNum 1, Value.vStr "10.5", []⟩

/-- Concrete row whose raw `SeniorCitizen` value lies outside `{0, 1}`. -/
def c3Row : Row := ⟨Value.vStr "A", Value.vNum 2, Value.vStr "10", []⟩

/-- Concrete row used to instantiate the transform invariants. -/
def c3wRow : Row := ⟨Value.vStr "B", Value.vNum 1, Value.vStr "", []⟩

/-- First row (customerID "A") of the duplicate-key example. -/
def c4r1 : Row := ⟨Value.vStr "A", Value.vNum 1, Value.vStr "10.5", []⟩

/-- Second row, duplicating customerID "A" with different values. -/
def c4r2 : Row := ⟨Value.vStr "A", Value.vNum 0, Value.vStr "", []⟩

/-- Third row (customerID "B") of the duplicate-key example. -/
def c4r3 : Row := ⟨Value.vStr "B", Value.vNum 1, Value.vStr "bad", []⟩

theorem mem_dropDup_not_seen {seen : List Value} {l : List Row} {r : Row}
    (h : r ∈ dropDuplicatesByCustomerID seen l) : r.customerID ∉ seen := by
  induction l generalizing seen with
  | nil => simp [dropDuplicatesByCustomerID] at h
  | cons a as ih =>
    unfold dropDuplicatesByCustomerID at h
    by_cases ha : a.customerID ∈ seen
    · rw [if_pos ha] at h
      exact ih h
    · rw [if_neg ha] at h
      rcases List.mem_cons.mp h with rfl | h'
      · exact ha
      · have h2 := ih h'
        exact fun hmem => h2 (List.mem_cons_of_mem _ hmem)

theorem dropDup_nodup (seen : List Value) (l : List Row) :
    ((dropDuplicatesByCustomerID seen l).map Row.customerID).Nodup := by
  induction l generalizing seen with
  | nil => simp [dropDuplicatesByCustomerID]
  | cons a as ih =>
    unfold dropDuplicatesByCustomerID
    by_cases ha : a.customerID ∈ seen
    · rw [if_pos ha]
      exact ih seen
    · rw [if_neg ha]
      simp only [List.map_cons, List.nodup_cons]
      refine ⟨?_, ih _⟩
      intro hmem
      rcases List.mem_map.mp hmem with ⟨r, hr, hcid⟩
      exact mem_dropDup_not_seen hr
        (by rw [hcid]; exact List.mem_cons_self _ _)

theorem dropDup_sublist (seen : List Value) (l : List Row) :
    List.Sublist (dropDuplicatesByCustomerID seen l) l := by
  induction l generalizing seen with
  | nil => simp [dropDuplicatesByCustomerID]
  | cons a as ih =>
    unfold dropDuplicatesByCustomerID
    by_cases ha : a.customerID ∈ seen
    · rw [if_pos ha]
      exact List.Sublist.cons a (ih seen)
    · rw [if_neg ha]
      exact List.Sublist.cons₂ a (ih _)

theorem dropDup_mem_ids (seen : List Value) (l : List Row) (id : Value)
    (hid : id ∈ l.map Row.customerID) (hseen : id ∉ seen) :
    id ∈ (dropDuplicatesByCustomerID seen l).map Row.customerID := by
  induction l generalizing seen with
  | nil => simp at hid
  | cons a as ih =>
    unfold dropDuplicatesByCustomerID
    simp only [List.map_cons, List.mem_cons] at hid
    by_cases ha : a.customerID ∈ seen
    · rw [if_pos ha]
      rcases hid with rfl | h'
      · exact absurd ha hseen
      · exact ih seen h' hseen
    · rw [if_neg ha]
      simp only [List.map_cons, List.mem_cons]
      rcases hid with rfl | h'
      · exact Or.inl rfl
      · by_cases h2 : id = a.customerID
        · exact Or.inl h2
        · refine Or.inr (ih _ h' ?_)
          intro hmem
          rcases List.mem_cons.mp hmem with h3 | h3
          · exact h2 h3
          · exact hseen h3

theorem dropDup_find (seen : List Value) (l : List Row) (id : Value)
    (hseen : id ∉ seen) :
    (dropDuplicatesByCustomerID seen l).find?
        (fun r => decide (r.customerID = id)) =
      l.find? (fun r => decide (r.customerID = id)) := by
  induction l generalizing seen with
  | nil => simp [dropDuplicatesByCustomerID]
  | cons a as ih =>
    unfold dropDuplicatesByCustomerID
    by_cases ha : a.customerID ∈ seen
    · have hne : ¬(a.customerID = id) := fun he => hseen (he ▸ ha)
      rw [if_pos ha, ih seen hseen, List.find?_cons_of_neg]
      simp [hne]
    · rw [if_neg ha]
      by_cases hae : a.customerID = id
      · rw [List.find?_cons_of_pos _ (by simp [hae]),
          List.find?_cons_of_pos _ (by simp [hae])]
      · rw [List.find?_cons_of_neg _ (by simp [hae]),
          List.find?_cons_of_neg _ (by simp [hae])]
        refine ih _ ?_
        intro hmem
        rcases List.mem_cons.mp hmem with h3 | h3
        · exact hae h3.symm
        · exact hseen h3

theorem mapSeniorCitizen_cases (v : Value) :
    mapSeniorCitizen v = Value.vStr "Yes" ∨
      mapSeniorCitizen v = Value.vStr "No" ∨
      mapSeniorCitizen v = Value.vNull := by
  unfold mapSeniorCitizen
  by_cases h1 : v = Value.vNum 1
  · rw [if_pos h1]
    exact Or.inl rfl
  · rw [if_neg h1]
    by_cases h0 : v = Value.vNum 0
    · rw [if_pos h0]
      exact Or.inr (Or.inl rfl)
    · rw [if_neg h0]
      exact Or.inr (Or.inr rfl)

theorem coerceTotalCharges_cases (v : Value) :
    (∃ q, coerceTotalCharges v = Value.vNum q) ∨
      coerceTotalCharges v = Value.vNull := by
  cases v with
  | vStr s =>
    simp only [coerceTotalCharges]
    by_cases ht : pyStrip s = ""
    · rw [if_pos ht]
      exact Or.inr rfl
    · rw [if_neg ht]
      cases hp : parseNumeric (pyStrip s) with
      | none => exact Or.inr rfl
      | some q => exact Or.inl ⟨q, rfl⟩
  | vNum q => exact Or.inl ⟨q, rfl⟩
  | vNull => exact Or.inr rfl

/-- C1 counterexample: the raw `SeniorCitizen` value 2 lies outside
{0, 1}, and the normalization step turns it into null rather than passing
it through unchanged. -/
theorem C1_not_passthrough :
    mapSeniorCitizen (Value.vNum 2) = Value.vNull ∧
      Value.vNull ≠ Value.vNum 2 := by
  exact ⟨by decide, by decide⟩

/-- C1 (amended): the `SeniorCitizen` normalization maps raw value 1 to
"Yes" and raw value 0 to "No", and every raw value outside {0, 1} becomes
null (pandas `Series.map` with a dict maps absent keys to `NaN`), not a
pass-through of the raw value. -/
theorem C1_seniorCitizen_normalization (v : Value) :
    mapSeniorCitizen (Value.vNum 1) = Value.vStr "Yes" ∧
    mapSeniorCitizen (Value.vNum 0) = Value.vStr "No" ∧
    (v ≠ Value.vNum 1 → v ≠ Value.vNum 0 →
      mapSeniorCitizen v = Value.vNull) := by
  refine ⟨by decide, by decide, fun h1 h0 => ?_⟩
  unfold mapSeniorCitizen
  rw [if_neg h1, if_neg h0]

/-- C1 witness: a concrete raw value outside {0, 1} becomes null. -/
theorem C1_seniorCitizen_normalization_witness :
    mapSeniorCitizen (Value.vStr "maybe") = Value.vNull :=
  (C1_seniorCitizen_normalization (Value.vStr "maybe")).2.2
    (by decide) (by decide)

/-- C2 counterexample: with a non-empty batch, when `insert_many` raises,
`load_data` exits through the `except` block and the trace of store
operations does not contain `close` — the connection is not closed on
this exit path. -/
theorem C2_close_skipped_on_failure :
    (load_data ⟨true, true, true, none⟩ [sampleRow]).1 =
      Except.error "insert_many failed" ∧
    StoreOp.close ∉ (load_data ⟨true, true, true, none⟩ [sampleRow]).2 := by
  exact ⟨rfl, by decide⟩

/-- C2 (amended): for a non-empty batch, `load_data` closes the store
connection exactly on the success path: `close` appears in the operation
trace if and only if the call returns an inserted count, and when any
store operation raises, the error propagates without the connection being
closed. -/
theorem C2_close_iff_success (beh : StoreBehavior) (records : List Row)
    (h : records ≠ []) :
    StoreOp.close ∈ (load_data beh records).2 ↔
      ∃ n, (load_data beh records).1 = Except.ok n := by
  obtain ⟨c, d, i, r⟩ := beh
  unfold load_data
  rw [if_neg h]
  cases c <;> cases d <;> cases i <;> cases r <;> simp

/-- C2 witness: a concrete successful run whose trace contains `close`. -/
theorem C2_close_iff_success_witness :
    StoreOp.close ∈ (load_data ⟨true, true, true, some 1⟩ [sampleRow]).2 :=
  (C2_close_iff_success ⟨true, true, true, some 1⟩ [sampleRow]
    (by decide)).mpr ⟨1, rfl⟩

/-- C3 counterexample: on a table whose raw `SeniorCitizen` value is 2,
`transform_data` succeeds but the output record's `SeniorCitizen` is
null, which is neither "Yes" nor "No". -/
theorem C3_seniorCitizen_invariant_fails :
    transform_data [c3Row] =
      Except.ok [⟨Value.vStr "A", Value.vNull,
        Value.vNum ((10 : Nat) : Rat), []⟩] ∧
    Value.vNull ≠ Value.vStr "Yes" ∧ Value.vNull ≠ Value.vStr "No" := by
  refine ⟨rfl, by decide, by decide⟩

/-- C3 (amended): whenever `transform_data` succeeds, the output batch
has pairwise-distinct `customerID` values and every record's
`TotalCharges` is a number or null, and every record's `SeniorCitizen` is
one of "Yes", "No", or null — null arising for raw values outside
{0, 1}, so membership in {"Yes", "No"} alone is not an invariant. -/
theorem C3_transform_invariants (df recs : List Row)
    (h : transform_data df = Except.ok recs) :
    (recs.map Row.customerID).Nodup ∧
    (∀ r ∈ recs,
      (r.seniorCitizen = Value.vStr "Yes" ∨
        r.seniorCitizen = Value.vStr "No" ∨
        r.seniorCitizen = Value.vNull) ∧
      ((∃ q, r.totalCharges = Value.vNum q) ∨
        r.totalCharges = Value.vNull)) := by
  unfold transform_data at h
  by_cases hdf : df = []
  · rw [if_pos hdf] at h
    exact absurd h (by simp)
  · rw [if_neg hdf] at h
    have hrec : recs = (dropDuplicatesByCustomerID [] df).map transformRow :=
      (Except.ok.inj h).symm
    subst hrec
    constructor
    · have hmapeq :
          ((dropDuplicatesByCustomerID [] df).map transformRow).map
              Row.customerID =
            (dropDuplicatesByCustomerID [] df).map Row.customerID := by
        rw [List.map_map]
        rfl
      rw [hmapeq]
      exact dropDup_nodup [] df
    · intro r hr
      rcases List.mem_map.mp hr with ⟨r0, _, rfl⟩
      exact ⟨mapSeniorCitizen_cases r0.seniorCitizen,
        coerceTotalCharges_cases r0.totalCharges⟩

/-- C3 witness: the invariants instantiated on a concrete one-row table
on which `transform_data` succeeds. -/
theorem C3_transform_invariants_witness :
    (([(⟨Value.vStr "B", Value.vStr "Yes", Value.vNull, []⟩ : Row)].map
        Row.customerID)).Nodup :=
  (C3_transform_invariants [c3wRow]
    [⟨Value.vStr "B", Value.vStr "Yes", Value.vNull, []⟩] rfl).1

/-- C4: on a table with a duplicated `customerID`, deduplication returns
an order-preserving selection of the input rows (a sublist), with
pairwise-distinct `customerID` values, covering every `customerID` of the
input, and for every `customerID` the kept row is the first matching row
of the input — exactly first-occurrence, order-preserving dedup. -/
theorem C4_dedup_keeps_first (df : List Row)
    (h : ¬ (df.map Row.customerID).Nodup) :
    List.Sublist (dropDuplicatesByCustomerID [] df) df ∧
    ((dropDuplicatesByCustomerID [] df).map Row.customerID).Nodup ∧
    (∀ id ∈ df.map Row.customerID,
      id ∈ (dropDuplicatesByCustomerID [] df).map Row.customerID) ∧
    (∀ id : Value,
      (dropDuplicatesByCustomerID [] df).find?
          (fun r => decide (r.customerID = id)) =
        df.find? (fun r => decide (r.customerID = id))) :=
  ⟨dropDup_sublist [] df, dropDup_nodup [] df,
    fun id hid => dropDup_mem_ids [] df id hid (by simp),
    fun id => dropDup_find [] df id (by simp)⟩

/-- C4 witness: dedup on the concrete table with customerIDs A, A, B. -/
theorem C4_dedup_keeps_first_witness :
    List.Sublist (dropDuplicatesByCustomerID [] [c4r1, c4r2, c4r3])
      [c4r1, c4r2, c4r3] :=
  (C4_dedup_keeps_first [c4r1, c4r2, c4r3] (by decide)).1

/-- C5: `TotalCharges` coercion maps the empty string and whitespace-only
strings to null, non-numeric text to null, parses "29.85" (with or
without surrounding whitespace, which is stripped first) to the number
29.85, and on every string input totally produces a number or null —
it never raises. -/
theorem C5_totalCharges_coercion (s : String) :
    coerceTotalCharges (Value.vStr "") = Value.vNull ∧
    coerceTotalCharges (Value.vStr "  ") = Value.vNull ∧
    coerceTotalCharges (Value.vStr "bad") = Value.vNull ∧
    coerceTotalCharges (Value.vStr "29.85") = Value.vNum (2985 / 100) ∧
    coerceTotalCharges (Value.vStr " 29.85  ") = Value.vNum (2985 / 100) ∧
    ((∃ q, coerceTotalCharges (Value.vStr s) = Value.vNum q) ∨
      coerceTotalCharges (Value.vStr s) = Value.vNull) := by
  have hp : parseNumeric "29.85" =
      some (((29 : Nat) : Rat) + ((85 : Nat) : Rat) / (10 : Rat) ^ 2) := rfl
  have hval : ((29 : Nat) : Rat) + ((85 : Nat) : Rat) / (10 : Rat) ^ 2 =
      2985 / 100 := by
    norm_num
  have hmain : coerceTotalCharges (Value.vStr "29.85") =
      Value.vNum (2985 / 100) := by
    have hs : pyStrip "29.85" = "29.85" := by decide
    simp only [coerceTotalCharges, hs]
    rw [if_neg (by decide), hp, hval]
  have hws : coerceTotalCharges (Value.vStr " 29.85  ") =
      Value.vNum (2985 / 100) := by
    have hs : pyStrip " 29.85  " = "29.85" := by decide
    simp only [coerceTotalCharges, hs]
    rw [if_neg (by decide), hp, hval]
  exact ⟨rfl, rfl, rfl, hmain, hws, coerceTotalCharges_cases (Value.vStr s)⟩

theorem missingVars_eq (url ds db coll : Option String) :
    missingVars url ds db coll =
      (if isMissing url then ["MONGODB_URL"] else []) ++
      (if isMissing ds then ["DATA_SOURCE"] else []) ++
      (if isMissing db then ["MONGODB_DATABASE"] else []) ++
      (if isMissing coll then ["MONGODB_COLLECTION"] else []) := by
  unfold missingVars requiredVars
  cases hu : isMissing url <;> cases hd : isMissing ds <;>
    cases hb : isMissing db <;> cases hc : isMissing coll <;>
    simp [List.filter_cons, List.filter_nil, hu, hd, hb, hc]

/-- C6: validation fails if and only if at least one of the four required
environment parameters is unset or empty, and the error message is built
from the list of every missing parameter name (joined by commas), whose
membership matches exactly the missing parameters — not just the first
one found. -/
theorem C6_validate_env_missing (url ds db coll : Option String) :
    ((∃ m, validate_env url ds db coll = Except.error m) ↔
      (isMissing url = true ∨ isMissing ds = true ∨ isMissing db = true ∨
        isMissing coll = true)) ∧
    (missingVars url ds db coll ≠ [] →
      validate_env url ds db coll =
        Except.error ("Missing required environment variables: " ++
          String.intercalate ", " (missingVars url ds db coll))) ∧
    ("MONGODB_URL" ∈ missingVars url ds db coll ↔ isMissing url = true) ∧
    ("DATA_SOURCE" ∈ missingVars url ds db coll ↔ isMissing ds = true) ∧
    ("MONGODB_DATABASE" ∈ missingVars url ds db coll ↔
      isMissing db = true) ∧
    ("MONGODB_COLLECTION" ∈ missingVars url ds db coll ↔
      isMissing coll = true) := by
  refine ⟨?_, ?_, ?_, ?_, ?_, ?_⟩
  all_goals
    cases hu : isMissing url <;> cases hd : isMissing ds <;>
      cases hb : isMissing db <;> cases hc : isMissing coll <;>
      simp [validate_env, missingVars_eq, hu, hd, hb, hc]

/-- C6 witness: with only the store URI unset, validation fails and the
message names it. -/
theorem C6_validate_env_missing_witness :
    validate_env none (some "src") (some "dbx") (some "col") =
      Except.error ("Missing required environment variables: " ++
        String.intercalate ", "
          (missingVars none (some "src") (some "dbx") (some "col"))) :=
  (C6_validate_env_missing none (some "src") (some "dbx")
    (some "col")).2.1 (by decide)

/-- C7: extraction fails when the snapshot directory holds zero or two
or more CSV files, fails when the single parsed table is empty, and
returns the parsed table exactly when there is one CSV file with a
non-empty table. -/
theorem C7_extract_exactly_one_file (files : List CsvFile) :
    (files.length ≠ 1 →
      extract_data files =
        Except.error "Expected exactly one CSV file in dataset directory") ∧
    (∀ f, files = [f] → f.table = [] →
      extract_data files = Except.error "Extracted dataset is empty") ∧
    (∀ f, files = [f] → f.table ≠ [] →
      extract_data files = Except.ok f.table) := by
  refine ⟨?_, ?_, ?_⟩
  · intro h
    match files with
    | [] => rfl
    | [f] => exact absurd rfl h
    | a :: b :: rest => rfl
  · rintro f rfl h
    simp [extract_data, h]
  · rintro f rfl h
    simp [extract_data, h]

/-- C7 witness: an empty snapshot directory is rejected. -/
theorem C7_extract_exactly_one_file_witness :
    extract_data ([] : List CsvFile) =
      Except.error "Expected exactly one CSV file in dataset directory" :=
  (C7_extract_exactly_one_file []).1 (by decide)

/-- C8: on the empty table, `transform_data` raises the transformation
error, and on every input it either returns a full batch or raises —
there is no partial output. -/
theorem C8_transform_empty_raises :
    transform_data [] = Except.error "Cannot transform an empty DataFrame" ∧
    (∀ df : List Row,
      (∃ e, transform_data df = Except.error e) ∨
      (∃ recs, transform_data df = Except.ok recs)) := by
  refine ⟨rfl, fun df => ?_⟩
  by_cases h : df = []
  · subst h
    exact Or.inl ⟨_, rfl⟩
  · exact Or.inr ⟨(dropDuplicatesByCustomerID [] df).map transformRow,
      by simp [transform_data, h]⟩

/-- C9: called on an empty batch, `load_data` returns 0 without raising
and its store-operation trace is empty — no connection, no clear, no
index creation, no insert, for every store behaviour. -/
theorem C9_load_empty_no_store_ops (beh : StoreBehavior) :
    load_data beh [] = (Except.ok 0, []) := rfl

/-- C10: the exception constructor stores no source location when no
traceback is active (`file_name` and `lineno` both `None`), and copies
the line number and file name out of the active traceback when one is
present. -/
theorem C10_exception_location (msg : String) (tb : Traceback) :
    (mkCustomerChurnException msg none).lineno = none ∧
    (mkCustomerChurnException msg none).file_name = none ∧
    (mkCustomerChurnException msg (some tb)).lineno = some tb.tb_lineno ∧
    (mkCustomerChurnException msg (some tb)).file_name =
      some tb.tb_filename :=
  ⟨rfl, rfl, rfl, rfl⟩

end ChurnETL
